import Mathlib

/-!
Shallow embedding of `src/dashboard/src/app/page.tsx`, the single source file
of the repository: a React client page with three pieces of state
(`prompt`, `loading`, `result`), one event handler `handleRun` that performs
a single HTTP POST, and a pure rendering function (the JSX returned by
`Home`).

Modelling conventions:
- JSON values are the inductive `Json`; JSON numbers are rationals.
- The JavaScript value stored in the `result` state is a `Json`; the initial
  `useState(null)` and `setResult(null)` store `Json.null`.
- The outcome of the `fetch` / `res.json()` pair is a `FetchResult`:
  either the fetch rejected (network error), or a response arrived with some
  HTTP status and a body whose JSON parse either succeeded (`some` value) or
  threw (`none`).
- `handleRun` is transcribed as a straight-line function from the pre-state
  and the fetch outcome to a `RunOutcome`: the state visible while the
  request is in flight (after `setLoading(true); setResult(null)`), the list
  of HTTP requests issued, the state after the handler settles, and the
  `console.error` diagnostic entries written.
- Rendering is the pure function `renderHome`; JSX expression children
  follow React semantics: `{loading && X}` shows `X` exactly when `loading`,
  and `{result && card}` shows the card when `result` is truthy, nothing
  when `result` is `null`, `false` or `""`, and the text node `"0"` when
  `result` is the number `0` (React renders a number child as text).
- Property access inside the card (`result.strategy.strategy_name`, …)
  follows JavaScript semantics: access on a non-object yields `undefined`,
  access on `null` or `undefined` throws `TypeError`.  `renderResult`
  returns `none` when evaluating the card's expressions throws.
-/

/-- A JSON value, as produced by `res.json()`. Numbers are modelled as
rationals. -/
inductive Json where
  | null
  | bool (b : Bool)
  | num (n : Rat)
  | str (s : String)
  | arr (xs : List Json)
  | obj (kvs : List (String × Json))

/-- JavaScript truthiness of a JSON value: `null`, `false`, `0` and `""`
are falsy; every other JSON value (including every array and object) is
truthy. -/
def truthy : Json → Bool
  | .null => false
  | .bool b => b
  | .num n => if n = 0 then false else true
  | .str s => if s = "" then false else true
  | .arr _ => true
  | .obj _ => true

/-- The component state of `Home`: `useState("")`, `useState(false)`,
`useState(null)`. -/
structure State where
  prompt : String
  loading : Bool
  result : Json

/-- The initial state of the component: empty prompt, not loading, `result`
set to `null`. -/
def initState : State :=
  { prompt := "", loading := false, result := Json.null }

/-- Outcome of the `fetch(...)` call followed by `res.json()`:
`netError` when the fetch itself rejects; `response status body` when a
response with the given HTTP status arrives, `body` being `some v` when the
response body parses to the JSON value `v` and `none` when `res.json()`
throws on a malformed body. -/
inductive FetchResult where
  | netError
  | response (status : Nat) (body : Option Json)

/-- The parsed response value, when the request and the body parse both
succeeded; `none` on any failure. -/
def fetchParsed : FetchResult → Option Json
  | .response _ (some d) => some d
  | _ => none

/-- An outbound HTTP request as built by the `fetch` call; `body` is the
JSON value serialized by `JSON.stringify`. -/
structure HttpRequest where
  method : String
  url : String
  headers : List (String × String)
  body : Json

/-- Lines 15-16 of `handleRun`: `setLoading(true); setResult(null)` — the
state visible while the request is in flight. -/
def handleRunStart (s : State) : State :=
  { s with loading := true, result := Json.null }

/-- Lines 19-25 of `handleRun`: the single request issued by the `fetch`
call — `POST http://localhost:8000/run-strategy` with a JSON content type
and body `JSON.stringify({ prompt })`. -/
def handleRunRequest (s : State) : HttpRequest :=
  { method := "POST"
    url := "http://localhost:8000/run-strategy"
    headers := [("Content-Type", "application/json")]
    body := Json.obj [("prompt", Json.str s.prompt)] }

/-- Lines 27-33 of `handleRun`: on a parsed body, `setResult(data)`; on any
failure (fetch rejection or `res.json()` throwing) the `catch` swallows the
error and `result` is left unchanged; the `finally` block runs
`setLoading(false)` in every case. -/
def handleRunFinish (s : State) (f : FetchResult) : State :=
  match f with
  | .response _ (some d) => { s with result := d, loading := false }
  | _ => { s with loading := false }

/-- The `console.error("Failed to run strategy", err)` entries written by
one execution of `handleRun`: exactly one on any caught failure, none on
success. -/
def handleRunLogs : FetchResult → List String
  | .response _ (some _) => []
  | _ => ["Failed to run strategy"]

/-- One full execution of `handleRun` for a given pre-state and fetch
outcome: the in-flight state, the requests issued, the diagnostic log
entries, and the state after the handler settles. -/
structure RunOutcome where
  midState : State
  requests : List HttpRequest
  logs : List String
  finalState : State

/-- The `handleRun` event handler of `page.tsx`, lines 14-34, transcribed
as a function of the pre-state and the fetch outcome. -/
def handleRun (s : State) (f : FetchResult) : RunOutcome :=
  let mid := handleRunStart s
  { midState := mid
    requests := [handleRunRequest mid]
    logs := handleRunLogs f
    finalState := handleRunFinish mid f }

/-- The `onChange` handler of the textarea, line 48:
`(e) => setPrompt(e.target.value)` with `v` the typed string. -/
def onPromptChange (s : State) (v : String) : State :=
  { s with prompt := v }

/-- A JavaScript value obtained by property access: either `undefined` or a
JSON value. -/
inductive JsVal where
  | undefined
  | val (j : Json)

/-- JavaScript property access on a non-null value: on an object, the
field's value (or `undefined` when the key is absent); on any other
non-null value (number, string, boolean, array), `undefined`. -/
def jgetField (j : Json) (k : String) : JsVal :=
  match j with
  | .obj kvs =>
    match kvs.lookup k with
    | some v => .val v
    | none => .undefined
  | _ => .undefined

/-- JavaScript property access on an arbitrary value: throws `TypeError`
(`none`) on `undefined` and on `null`, otherwise yields `jgetField`. -/
def jsAccess : JsVal → String → Option JsVal
  | .undefined, _ => none
  | .val .null, _ => none
  | .val j, k => some (jgetField j k)

/-- The displayed fields of the result card, lines 67-81: each is the value
of the corresponding JSX expression (possibly `undefined`, which React
renders as nothing). -/
structure ResultPanel where
  strategy_name : JsVal
  description : JsVal
  sharpe_ratio : JsVal
  win_rate : JsVal
  average_return : JsVal
  explanation : JsVal

/-- Evaluation of the card's JSX expressions, lines 69-78, in source order:
`result.strategy.strategy_name`, `result.strategy.description`,
`result.results.sharpe_ratio`, `result.results.win_rate`,
`result.results.average_return`, `result.explanation`.  Yields `none` when
one of the accesses throws `TypeError` (access on `undefined` or `null`). -/
def renderResult (result : Json) : Option ResultPanel := do
  let strategy ← jsAccess (.val result) "strategy"
  let name ← jsAccess strategy "strategy_name"
  let description ← jsAccess strategy "description"
  let results ← jsAccess (.val result) "results"
  let sharpe ← jsAccess results "sharpe_ratio"
  let win ← jsAccess results "win_rate"
  let avg ← jsAccess results "average_return"
  let explanation ← jsAccess (.val result) "explanation"
  some { strategy_name := name, description := description,
         sharpe_ratio := sharpe, win_rate := win, average_return := avg,
         explanation := explanation }

/-- What the result area (line 66, `{result && <Card>…</Card>}`) shows:
nothing, a bare text node, or the card (whose evaluation may throw). -/
inductive ResultArea where
  | empty
  | textNode (t : String)
  | card (p : Option ResultPanel)

/-- The JSX expression `{result && <Card>…</Card>}`: when `result` is
truthy the card is rendered; otherwise the expression evaluates to the
falsy `result` itself, which React renders as nothing for `null`, `false`
and `""`, and as the text `"0"` for the number `0` (the only falsy
number). -/
def renderResultArea (result : Json) : ResultArea :=
  if truthy result then .card (renderResult result)
  else
    match result with
    | .num _ => .textNode "0"
    | _ => .empty

/-- The fixed skeleton shown while loading, lines 58-63: four bars with
these height/width classes. -/
def skeletonBars : List String :=
  ["h-6 w-1/2", "h-4 w-3/4", "h-4 w-full", "h-4 w-5/6"]

/-- The view rendered by `Home` as a function of the state. -/
structure HomeView where
  textareaValue : String
  textareaPlaceholder : String
  buttonDisabled : Bool
  buttonLabel : String
  skeleton : Option (List String)
  resultArea : ResultArea

/-- The JSX returned by `Home`, lines 36-86, as a pure function of the
state: the textarea bound to `prompt`, the button disabled iff `loading`
with label `{loading ? "Running..." : "Run Strategy"}`, the skeleton shown
iff `loading`, and the result area of line 66. -/
def renderHome (s : State) : HomeView :=
  { textareaValue := s.prompt
    textareaPlaceholder := "Enter your strategy prompt here..."
    buttonDisabled := s.loading
    buttonLabel := if s.loading then "Running..." else "Run Strategy"
    skeleton := if s.loading then some skeletonBars else none
    resultArea := renderResultArea s.result }

/-- One step of the component's event system: the user edits the prompt at
any time; a submission starts only while the button is enabled
(`loading = false`) and moves the state to `handleRunStart`; an in-flight
request completes with some fetch outcome and moves the state to
`handleRunFinish`. -/
inductive Step : State → State → Prop where
  | edit (s : State) (v : String) : Step s (onPromptChange s v)
  | submit (s : State) (h : s.loading = false) : Step s (handleRunStart s)
  | complete (s : State) (f : FetchResult) (h : s.loading = true) :
      Step s (handleRunFinish s f)

/-- States reachable from the initial state through user edits,
submissions and request completions. -/
inductive Reachable : State → Prop where
  | init : Reachable initState
  | step {s t : State} : Reachable s → Step s t → Reachable t

/-- Whether a further property access on this value succeeds (does not
throw `TypeError`): it fails exactly on `undefined` and `null`. -/
def accOk : JsVal → Bool
  | .undefined => false
  | .val .null => false
  | .val _ => true

/-- A truthy response value whose `strategy` and `results` fields hold the
number `1` (not objects): used to probe the partiality of the result
card. -/
def cexResult : Json :=
  Json.obj [("strategy", Json.num 1), ("results", Json.num 1),
            ("explanation", Json.str "e")]

/-- C1: after `handleRun` settles, `loading` is false and exactly one of
the following holds: `result` holds the value the response body parsed to,
or `result` is absent (`null`) because the request or the JSON parse
failed. -/
theorem handleRun_settles (s : State) (f : FetchResult) :
    (handleRun s f).finalState.loading = false ∧
      Xor' (∃ d, fetchParsed f = some d ∧ (handleRun s f).finalState.result = d)
        (fetchParsed f = none ∧ (handleRun s f).finalState.result = Json.null) := by
  rcases f with _ | ⟨st, _ | d⟩
  · exact ⟨rfl, Or.inr ⟨⟨rfl, rfl⟩, fun ⟨d, hd, _⟩ => nomatch hd⟩⟩
  · exact ⟨rfl, Or.inr ⟨⟨rfl, rfl⟩, fun ⟨d, hd, _⟩ => nomatch hd⟩⟩
  · exact ⟨rfl, Or.inl ⟨⟨d, rfl, rfl⟩, fun ⟨hn, _⟩ => nomatch hn⟩⟩

/-- C2: on any failure during the request or the JSON parse, `handleRun`
catches it, writes exactly one diagnostic log entry, and swallows it:
`result` remains absent (`null`) and `loading` ends up false. -/
theorem handleRun_failure_swallowed (s : State) (f : FetchResult)
    (h : fetchParsed f = none) :
    (handleRun s f).logs = ["Failed to run strategy"] ∧
    (handleRun s f).finalState.result = Json.null ∧
    (handleRun s f).finalState.loading = false := by
  rcases f with _ | ⟨st, _ | d⟩
  · exact ⟨rfl, rfl, rfl⟩
  · exact ⟨rfl, rfl, rfl⟩
  · exact nomatch h

/-- Witness for C2 at a concrete failing fetch outcome (network error on
the initial state). -/
theorem handleRun_failure_swallowed_witness :
    (handleRun initState FetchResult.netError).logs = ["Failed to run strategy"] ∧
    (handleRun initState FetchResult.netError).finalState.result = Json.null ∧
    (handleRun initState FetchResult.netError).finalState.loading = false :=
  handleRun_failure_swallowed initState FetchResult.netError rfl

/-- C3: for every HTTP response whose body parses, regardless of the
status code, `handleRun` assigns the parsed value to `result` as-is —
any JSON value `d` and any status, with no validation and no distinction
between error statuses and success. -/
theorem handleRun_any_status_stores_parsed (s : State) (status : Nat) (d : Json) :
    (handleRun s (FetchResult.response status (some d))).finalState.result = d := rfl

/-- C4: every invocation of `handleRun` first sets `loading` to true and
clears `result` to absent (the in-flight state, established before the
single request is issued), and a second submission after the first settles
again starts from a cleared `result`. -/
theorem handleRun_clears_before_request (s : State) (f : FetchResult) :
    (handleRun s f).midState =
      { prompt := s.prompt, loading := true, result := Json.null } ∧
    ∀ g : FetchResult,
      (handleRun (handleRun s f).finalState g).midState =
        { prompt := s.prompt, loading := true, result := Json.null } := by
  rcases f with _ | ⟨st, _ | d⟩ <;> exact ⟨rfl, fun g => rfl⟩

/-- C6: every invocation of `handleRun` issues exactly one HTTP POST to
`http://localhost:8000/run-strategy` with a JSON content-type header and
body the JSON object with the single field `prompt` holding the current
prompt string verbatim, for every prompt value. -/
theorem handleRun_single_request (s : State) (f : FetchResult) :
    (handleRun s f).requests =
      [{ method := "POST"
         url := "http://localhost:8000/run-strategy"
         headers := [("Content-Type", "application/json")]
         body := Json.obj [("prompt", Json.str s.prompt)] }] := rfl

/-- C7: in every state, the submit button is disabled exactly when
`loading` is true (enabled is the negation of `loading`), its label is a
function of `loading` with one label while loading and another while idle,
the textarea displays `prompt`, and a keystroke updates `prompt` to
exactly the typed string, changing nothing else. -/
theorem renderHome_controls (s : State) (v : String) :
    (renderHome s).buttonDisabled = s.loading ∧
    (renderHome s).buttonLabel =
      (if s.loading then "Running..." else "Run Strategy") ∧
    (renderHome s).textareaValue = s.prompt ∧
    (onPromptChange s v).prompt = v ∧
    (onPromptChange s v).loading = s.loading ∧
    (onPromptChange s v).result = s.result :=
  ⟨rfl, rfl, rfl, rfl, rfl, rfl⟩

/-- C8: `handleRun` never modifies the prompt: both the in-flight state and
the final state carry the same prompt as the pre-state, whether the request
succeeds or fails. -/
theorem handleRun_preserves_prompt (s : State) (f : FetchResult) :
    (handleRun s f).finalState.prompt = s.prompt ∧
    (handleRun s f).midState.prompt = s.prompt := by
  rcases f with _ | ⟨st, _ | d⟩ <;> exact ⟨rfl, rfl⟩

/-- Invariant backing C5: in every reachable state, `loading = true`
implies `result` is still `null` (a submission clears `result` and only a
completion, which also clears `loading`, can set it). -/
theorem reachable_loading_result_null {s : State} (hr : Reachable s) :
    s.loading = true → s.result = Json.null := by
  induction hr with
  | init => exact fun h => nomatch h
  | step hr st ih =>
    cases st with
    | edit v => exact fun h => ih h
    | submit hs => exact fun _ => rfl
    | complete f hs =>
      rcases f with _ | ⟨st2, _ | d⟩ <;> exact fun h => nomatch h

/-- C5: in every reachable state with `loading = true`, the view shows the
four-bar placeholder and the result area is empty (no result panel),
because `result` is still absent in every such state. -/
theorem loading_renders_skeleton_no_result {s : State} (hr : Reachable s)
    (h : s.loading = true) :
    (renderHome s).skeleton = some skeletonBars ∧
    (renderHome s).resultArea = ResultArea.empty := by
  have hres := reachable_loading_result_null hr h
  constructor
  · simp [renderHome, h]
  · simp [renderHome, renderResultArea, hres, truthy]

/-- Witness for C5 at a concrete reachable loading state: the state right
after submitting from the initial state. -/
theorem loading_renders_skeleton_no_result_witness :
    (renderHome (handleRunStart initState)).skeleton = some skeletonBars ∧
    (renderHome (handleRunStart initState)).resultArea = ResultArea.empty :=
  loading_renders_skeleton_no_result
    (Reachable.step Reachable.init (Step.submit initState rfl)) rfl

/-- C9 counterexample: a response body parsing to the falsy JSON value `0`
is stored in `result`, and the result area then shows the bare text `"0"`
(the JSX expression `result && card` evaluates to `0`, which React renders
as a text node), while after a failed request the result area is empty —
so this success is observationally distinguishable from a failure,
refuting the claim for the falsy value `0`. -/
theorem falsy_zero_distinguishable :
    (handleRun initState
        (FetchResult.response 200 (some (Json.num 0)))).finalState.result
      = Json.num 0 ∧
    (renderHome (handleRun initState
        (FetchResult.response 200 (some (Json.num 0)))).finalState).resultArea
      = ResultArea.textNode "0" ∧
    (renderHome (handleRun initState FetchResult.netError).finalState).resultArea
      = ResultArea.empty ∧
    ResultArea.textNode "0" ≠ ResultArea.empty :=
  ⟨rfl, rfl, rfl, fun h => nomatch h⟩

/-- C9 amended: a falsy parsed body is stored in `result` and the result
panel (card) is never rendered for it; for `null`, `false` and `""` the
result area is empty exactly as after a failed request, but for the falsy
number `0` the area shows the text `"0"`, so only the non-numeric falsy
values are indistinguishable from a failure. -/
theorem falsy_result_no_panel (s : State) (status : Nat) (d : Json)
    (h : truthy d = false) :
    (handleRun s (FetchResult.response status (some d))).finalState.result = d ∧
    (∀ p, (renderHome (handleRun s
        (FetchResult.response status (some d))).finalState).resultArea
          ≠ ResultArea.card p) ∧
    ((∀ n : Rat, d ≠ Json.num n) →
      (renderHome (handleRun s
          (FetchResult.response status (some d))).finalState).resultArea
        = ResultArea.empty) ∧
    (∀ n : Rat, d = Json.num n →
      (renderHome (handleRun s
          (FetchResult.response status (some d))).finalState).resultArea
        = ResultArea.textNode "0") := by
  refine ⟨rfl, ?_, ?_, ?_⟩ <;>
    cases d with
    | null => simp [renderHome, renderResultArea, handleRun, handleRunStart,
        handleRunFinish, truthy]
    | bool b =>
      cases b with
      | false => simp [renderHome, renderResultArea, handleRun, handleRunStart,
          handleRunFinish, truthy]
      | true => exact nomatch h
    | num n => simp_all [renderHome, renderResultArea, handleRun, handleRunStart,
        handleRunFinish, truthy]
    | str s2 => simp_all [renderHome, renderResultArea, handleRun, handleRunStart,
        handleRunFinish, truthy]
    | arr xs => exact nomatch h
    | obj kvs => exact nomatch h

/-- Witness for C9 (amended) at the concrete falsy value `false`. -/
theorem falsy_result_no_panel_witness :
    (handleRun initState
        (FetchResult.response 200 (some (Json.bool false)))).finalState.result
      = Json.bool false ∧
    (∀ p, (renderHome (handleRun initState
        (FetchResult.response 200 (some (Json.bool false)))).finalState).resultArea
          ≠ ResultArea.card p) ∧
    ((∀ n : Rat, Json.bool false ≠ Json.num n) →
      (renderHome (handleRun initState
          (FetchResult.response 200 (some (Json.bool false)))).finalState).resultArea
        = ResultArea.empty) ∧
    (∀ n : Rat, Json.bool false = Json.num n →
      (renderHome (handleRun initState
          (FetchResult.response 200 (some (Json.bool false)))).finalState).resultArea
        = ResultArea.textNode "0") :=
  falsy_result_no_panel initState 200 (Json.bool false) rfl

/-- C10 counterexample: `cexResult` is truthy and its `strategy` field is
the number `1`, not an object, yet evaluating the result card succeeds
(property access on a number yields `undefined`, which renders as nothing,
rather than throwing) — refuting both that any truthy result lacking an
object-valued `strategy` field makes rendering fail, and that rendering is
total only on results matching the `StrategyResult` shape. -/
theorem renderResult_nonobject_counterexample :
    truthy cexResult = true ∧
    jgetField cexResult "strategy" = JsVal.val (Json.num 1) ∧
    (∀ kvs, Json.num 1 ≠ Json.obj kvs) ∧
    (renderResult cexResult).isSome = true :=
  ⟨rfl, rfl, fun _ h => Json.noConfusion h, rfl⟩

/-- C10 amended: rendering of the result card is partial, and for a truthy
`result` it succeeds exactly when both the `strategy` and the `results`
property accesses yield a defined, non-null value: a missing field (or a
primitive `result`) gives `undefined` and the next access throws, while
any present non-null field value — object or not — renders (non-object
fields merely display their sub-fields as `undefined`, i.e. blank). -/
theorem renderResult_total_iff (result : Json) (h : truthy result = true) :
    (renderResult result).isSome =
      (accOk (jgetField result "strategy") && accOk (jgetField result "results")) := by
  cases result with
  | null => exact nomatch h
  | bool b => rfl
  | num n => rfl
  | str s2 => rfl
  | arr xs => rfl
  | obj kvs =>
    rcases hl : kvs.lookup "strategy" with _ | j
    · simp [renderResult, jsAccess, jgetField, accOk, hl]
    · rcases ht : kvs.lookup "results" with _ | j2
      · cases j <;> simp [renderResult, jsAccess, jgetField, accOk, hl, ht]
      · cases j <;> cases j2 <;>
          simp [renderResult, jsAccess, jgetField, accOk, hl, ht]

/-- Witness for C10 (amended) at the concrete truthy value `1`: rendering
fails there since `(1).strategy` is `undefined`. -/
theorem renderResult_total_iff_witness :
    (renderResult (Json.num 1)).isSome =
      (accOk (jgetField (Json.num 1) "strategy") &&
        accOk (jgetField (Json.num 1) "results")) :=
  renderResult_total_iff (Json.num 1) rfl
